import Mathlib

/-
Verification development for the entity construction layer
(graphicsfactory2.CreatorInterface): a shallow embedding of the factory
methods over an explicit heap of attribute dictionaries and a log of
created entities, with theorems settling the specified properties.
-/

set_option autoImplicit false

/-- A 3D point / vector value with rational coordinates. -/
structure Vec3 where
  x : ℚ
  y : ℚ
  z : ℚ
deriving DecidableEq

/-- A DXF attribute value: number, integer, string, vector or boolean. -/
inductive DxfValue where
  | num (q : ℚ)
  | int (n : ℤ)
  | str (s : String)
  | vec (v : Vec3)
  | bool (b : Bool)
deriving DecidableEq

/-- Python truthiness of an attribute value. -/
def DxfValue.truthy : DxfValue → Bool
  | DxfValue.num q => decide (q ≠ 0)
  | DxfValue.int n => decide (n ≠ 0)
  | DxfValue.str s => decide (s ≠ "")
  | DxfValue.vec _ => true
  | DxfValue.bool b => b

/-- An attribute dictionary: association list from names to values. -/
abbrev Dict := List (String × DxfValue)

/-- Remove every entry of key `k`. -/
def Dict.eraseKey (d : Dict) (k : String) : Dict :=
  d.filter (fun p => p.1 != k)

/-- First value stored under key `k`. -/
def Dict.find (d : Dict) (k : String) : Option DxfValue :=
  List.lookup k d

/-- Set key `k` to value `v` (unique-key insert). -/
def Dict.insert (d : Dict) (k : String) (v : DxfValue) : Dict :=
  (k, v) :: d.eraseKey k

/-- `d.get(k, dflt)` without mutation. -/
def Dict.get (d : Dict) (k : String) (dflt : DxfValue) : DxfValue :=
  (d.find k).getD dflt

/-- `d.pop(k, dflt)`: value (or default) and the dictionary without `k`. -/
def Dict.pop (d : Dict) (k : String) (dflt : DxfValue) : DxfValue × Dict :=
  (d.get k dflt, d.eraseKey k)

/-- `d.pop(k)` with no default: `Option.none` models the KeyError case. -/
def Dict.popReq (d : Dict) (k : String) : Option (DxfValue × Dict) :=
  (d.find k).map (fun v => (v, d.eraseKey k))

/-- Modelled from the spec: `update_dxf_attribs` of the external entity class
is the attribute-assembler merge, in which override entries win on key
collision over the existing attribute set. -/
def Dict.update (d : Dict) (new : Dict) : Dict :=
  new ++ d.filter (fun p => (List.lookup p.1 new).isNone)

/-- Errors raised by this layer. -/
inductive Err where
  | valueError (msg : String)
  | versionError (msg : String)
  | typeError (msg : String)
  | keyError (k : String)
deriving DecidableEq

/-- Modelled from the spec: format versions form an ordered value set
(R12 < R2000 < R2007 < ...); the version-code constants of the missing
const module are modelled by their numeric release codes. R2000. -/
def DXF2000 : Nat := 1015

/-- Modelled from the spec: version code of R2007. -/
def DXF2007 : Nat := 1021

/-- Modelled from the spec: version code of R12, below R2000. -/
def DXF12 : Nat := 1009

/-- Modelled from the spec: POLYLINE mode bit for 3D polylines, from the
missing const module (DXF flag bit 8). -/
def POLYLINE_3D_POLYLINE : ℤ := 8

/-- Modelled from the spec: POLYLINE mode bit for polymeshes (bit 16). -/
def POLYLINE_3D_POLYMESH : ℤ := 16

/-- Modelled from the spec: POLYLINE mode bit for polyfaces (bit 64). -/
def POLYLINE_POLYFACE : ℤ := 64

/-- Modelled from the spec: dimension type code for linear dimensions. -/
def DIM_LINEAR : ℤ := 0

/-- Modelled from the spec: block-exclusive dimension flag (bit 32). -/
def DIM_BLOCK_EXCLUSIVE : ℤ := 32

/-- A created entity: its type string, the attribute set it was created
with (later merged into by `update_dxf_attribs`), the indexed vertex slots
set by item assignment, appended vertices, close flags and ACIS data. -/
structure Entity where
  etype : String
  attrs : Dict
  slots : List (Nat × Vec3)
  vertices : List Vec3
  mclosed : Bool
  nclosed : Bool
  acis : Option String
deriving DecidableEq

/-- Placeholder entity for out-of-range reads. -/
def Entity.blank : Entity :=
  { etype := "", attrs := [], slots := [], vertices := [],
    mclosed := false, nclosed := false, acis := Option.none }

/-- The state of a factory call: active format version, the heap of live
attribute dictionaries (indexed by reference), and the log of entities
handed to the creation collaborator, in creation order. -/
structure PyState where
  version : Nat
  dicts : List Dict
  entities : List Entity
deriving DecidableEq

/-- Read the dictionary at reference `r`. -/
def PyState.getDict (st : PyState) (r : Nat) : Dict :=
  st.dicts.getD r []

/-- Allocate a fresh dictionary with contents `d`; returns its reference. -/
def PyState.allocDict (st : PyState) (d : Dict) : PyState × Nat :=
  ({ st with dicts := st.dicts ++ [d] }, st.dicts.length)

/-- Overwrite the dictionary at reference `r`. -/
def PyState.setDict (st : PyState) (r : Nat) (d : Dict) : PyState :=
  { st with dicts := st.dicts.set r d }

/-- Contents of an optional caller-supplied dictionary argument
(`dxfattribs or ` empty). -/
def PyState.readArg (st : PyState) (dref : Option Nat) : Dict :=
  match dref with
  | Option.none => []
  | Option.some r => st.getDict r

/-- The idiom `dict(dxfattribs or ...)`: allocate a fresh copy of the
caller-supplied dictionary (or of the empty dictionary). -/
def PyState.copyArg (st : PyState) (dref : Option Nat) : PyState × Nat :=
  st.allocDict (st.readArg dref)

/-- `d[k] = v` on the heap dictionary at `r`. -/
def PyState.dictInsert (st : PyState) (r : Nat) (k : String) (v : DxfValue) : PyState :=
  st.setDict r ((st.getDict r).insert k v)

/-- `d.pop(k, dflt)` on the heap dictionary at `r`. -/
def PyState.dictPop (st : PyState) (r : Nat) (k : String) (dflt : DxfValue) :
    PyState × DxfValue :=
  (st.setDict r ((st.getDict r).pop k dflt).2, ((st.getDict r).pop k dflt).1)

/-- `new_entity(type_, dxfattribs)`: snapshot the dictionary at `r`, hand it
to the creation collaborator, log the created entity, return its index. -/
def PyState.newEntity (st : PyState) (etype : String) (r : Nat) : PyState × Nat :=
  ({ st with entities := st.entities ++
      [{ etype := etype, attrs := st.getDict r, slots := [], vertices := [],
         mclosed := false, nclosed := false, acis := Option.none }] },
   st.entities.length)

/-- Mutate the logged entity at index `e`. -/
def PyState.modEntity (st : PyState) (e : Nat) (f : Entity → Entity) : PyState :=
  { st with entities := st.entities.set e (f (st.entities.getD e Entity.blank)) }

/-- The logged entity at index `e`. -/
def PyState.entityAt (st : PyState) (e : Nat) : Entity :=
  st.entities.getD e Entity.blank

/-- Vector subtraction (`p2 - p1`). -/
def Vec3.sub (a b : Vec3) : Vec3 :=
  { x := a.x - b.x, y := a.y - b.y, z := a.z - b.z }

/-- `add_point`: copy the caller dictionary, set `location`, create POINT. -/
def add_point (st : PyState) (location : Vec3) (dxfattribs : Option Nat) :
    PyState × Except Err Nat :=
  let p1 := st.copyArg dxfattribs
  let st2 := p1.1.dictInsert p1.2 "location" (DxfValue.vec location)
  let p3 := st2.newEntity "POINT" p1.2
  (p3.1, Except.ok p3.2)

/-- `add_line`: copy the caller dictionary, set `start` and `end`. -/
def add_line (st : PyState) (pstart pend : Vec3) (dxfattribs : Option Nat) :
    PyState × Except Err Nat :=
  let p1 := st.copyArg dxfattribs
  let st2 := (p1.1.dictInsert p1.2 "start" (DxfValue.vec pstart)).dictInsert p1.2
    "end" (DxfValue.vec pend)
  let p3 := st2.newEntity "LINE" p1.2
  (p3.1, Except.ok p3.2)

/-- `add_ellipse`: version gate, ratio check, then attribute assembly. -/
def add_ellipse (st : PyState) (center major_axis : Vec3) (ratioVal : ℚ)
    (start_param end_param : ℚ) (dxfattribs : Option Nat) :
    PyState × Except Err Nat :=
  if st.version < DXF2000 then
    (st, Except.error (Err.versionError "ELLIPSE requires DXF version R2000+"))
  else if 1 < ratioVal then
    (st, Except.error (Err.valueError "Parameter ratio has to be <= 1.0"))
  else
    let p1 := st.copyArg dxfattribs
    let st2 := ((((p1.1.dictInsert p1.2 "center" (DxfValue.vec center)).dictInsert
      p1.2 "major_axis" (DxfValue.vec major_axis)).dictInsert
      p1.2 "ratio" (DxfValue.num ratioVal)).dictInsert
      p1.2 "start_param" (DxfValue.num start_param)).dictInsert
      p1.2 "end_param" (DxfValue.num end_param)
    let p3 := st2.newEntity "ELLIPSE" p1.2
    (p3.1, Except.ok p3.2)

/-- `_four_points`: the values produced by the generator once consumed; the
length check raises before any point is yielded. -/
def four_points (points : List Vec3) : Except Err (List Vec3) :=
  if points.length ≠ 3 ∧ points.length ≠ 4 then
    Except.error (Err.valueError "3 or 4 points required.")
  else if points.length = 3 then
    Except.ok (points ++ [points.getLastD { x := 0, y := 0, z := 0 }])
  else
    Except.ok points

/-- `_add_quadrilateral`: the entity is created first; only then is the
point generator consumed, so a bad point count raises after creation and
before any vertex slot assignment. -/
def add_quadrilateral (st : PyState) (etype : String) (points : List Vec3)
    (dxfattribs : Option Nat) : PyState × Except Err Nat :=
  let p1 := st.copyArg dxfattribs
  let p2 := p1.1.newEntity etype p1.2
  match four_points points with
  | Except.error err => (p2.1, Except.error err)
  | Except.ok vs =>
      (p2.1.modEntity p2.2 (fun ent => { ent with slots := vs.enum }), Except.ok p2.2)

/-- `add_solid`. -/
def add_solid (st : PyState) (points : List Vec3) (dxfattribs : Option Nat) :
    PyState × Except Err Nat :=
  add_quadrilateral st "SOLID" points dxfattribs

/-- `add_trace`. -/
def add_trace (st : PyState) (points : List Vec3) (dxfattribs : Option Nat) :
    PyState × Except Err Nat :=
  add_quadrilateral st "TRACE" points dxfattribs

/-- `add_3dface`. -/
def add_3dface (st : PyState) (points : List Vec3) (dxfattribs : Option Nat) :
    PyState × Except Err Nat :=
  add_quadrilateral st "3DFACE" points dxfattribs

/-- Bitwise OR of a flags attribute value with a mode bit; a non-integer
value is a TypeError as in the source language. -/
def orFlags (v : DxfValue) (bit : ℤ) : Except Err DxfValue :=
  match v with
  | DxfValue.int n => Except.ok (DxfValue.int (Int.lor n bit))
  | _ => Except.error (Err.typeError "unsupported operand type for bitwise or")

/-- `add_polyline2d`: pop `closed`, create POLYLINE, close, append points. -/
def add_polyline2d (st : PyState) (points : List Vec3) (dxfattribs : Option Nat) :
    PyState × Except Err Nat :=
  let p1 := st.copyArg dxfattribs
  let p2 := p1.1.dictPop p1.2 "closed" (DxfValue.bool false)
  let p3 := p2.1.newEntity "POLYLINE" p1.2
  let st4 := p3.1.modEntity p3.2 (fun ent => { ent with mclosed := p2.2.truthy })
  let st5 := st4.modEntity p3.2 (fun ent => { ent with vertices := ent.vertices ++ points })
  (st5, Except.ok p3.2)

/-- `add_polyline3d`: OR the 3D-polyline mode bit into `flags`, then
delegate to `add_polyline2d`. -/
def add_polyline3d (st : PyState) (points : List Vec3) (dxfattribs : Option Nat) :
    PyState × Except Err Nat :=
  let p1 := st.copyArg dxfattribs
  match orFlags ((p1.1.getDict p1.2).get "flags" (DxfValue.int 0)) POLYLINE_3D_POLYLINE with
  | Except.error err => (p1.1, Except.error err)
  | Except.ok fv =>
      let st2 := p1.1.dictInsert p1.2 "flags" fv
      add_polyline2d st2 points (Option.some p1.2)

/-- `add_polymesh`: OR the polymesh mode bit, clamp both mesh dimensions to
a minimum of 2, set the counts, pop the close flags, create the POLYLINE
and append `m_size * n_size` zero vertices. -/
def add_polymesh (st : PyState) (size : ℤ × ℤ) (dxfattribs : Option Nat) :
    PyState × Except Err Nat :=
  let p1 := st.copyArg dxfattribs
  match orFlags ((p1.1.getDict p1.2).get "flags" (DxfValue.int 0)) POLYLINE_3D_POLYMESH with
  | Except.error err => (p1.1, Except.error err)
  | Except.ok fv =>
      let st2 := p1.1.dictInsert p1.2 "flags" fv
      let m_size : ℤ := max size.1 2
      let n_size : ℤ := max size.2 2
      let st3 := (st2.dictInsert p1.2 "m_count" (DxfValue.int m_size)).dictInsert
        p1.2 "n_count" (DxfValue.int n_size)
      let p4 := st3.dictPop p1.2 "m_close" (DxfValue.bool false)
      let p5 := p4.1.dictPop p1.2 "n_close" (DxfValue.bool false)
      let p6 := p5.1.newEntity "POLYLINE" p1.2
      let st7 := p6.1.modEntity p6.2 (fun ent =>
        { ent with vertices := ent.vertices ++
            List.replicate (m_size * n_size).toNat { x := 0, y := 0, z := 0 } })
      let st8 := st7.modEntity p6.2 (fun ent =>
        { ent with mclosed := p4.2.truthy, nclosed := p5.2.truthy })
      (st8, Except.ok p6.2)

/-- `add_polyface`: OR the polyface mode bit, pop the close flags, create
the POLYLINE, close. -/
def add_polyface (st : PyState) (dxfattribs : Option Nat) :
    PyState × Except Err Nat :=
  let p1 := st.copyArg dxfattribs
  match orFlags ((p1.1.getDict p1.2).get "flags" (DxfValue.int 0)) POLYLINE_POLYFACE with
  | Except.error err => (p1.1, Except.error err)
  | Except.ok fv =>
      let st2 := p1.1.dictInsert p1.2 "flags" fv
      let p3 := st2.dictPop p1.2 "m_close" (DxfValue.bool false)
      let p4 := p3.1.dictPop p1.2 "n_close" (DxfValue.bool false)
      let p5 := p4.1.newEntity "POLYLINE" p1.2
      let st6 := p5.1.modEntity p5.2 (fun ent =>
        { ent with mclosed := p3.2.truthy, nclosed := p4.2.truthy })
      (st6, Except.ok p5.2)

/-- `_add_acis_entiy`: R2000 gate, copy the caller dictionary, create the
entity, optionally attach the ACIS data. -/
def add_acis_entiy (st : PyState) (name : String) (acis_data : Option String)
    (dxfattribs : Option Nat) : PyState × Except Err Nat :=
  if st.version < DXF2000 then
    (st, Except.error (Err.versionError (name ++ " requires DXF version R2000+")))
  else
    let p1 := st.copyArg dxfattribs
    let p2 := p1.1.newEntity name p1.2
    match acis_data with
    | Option.none => (p2.1, Except.ok p2.2)
    | Option.some s =>
        (p2.1.modEntity p2.2 (fun ent => { ent with acis := Option.some s }),
         Except.ok p2.2)

/-- `add_surface`: R2007 gate, then the ACIS entity path. -/
def add_surface (st : PyState) (acis_data : Option String) (dxfattribs : Option Nat) :
    PyState × Except Err Nat :=
  if st.version < DXF2007 then
    (st, Except.error (Err.versionError "SURFACE requires DXF version R2007+"))
  else
    add_acis_entiy st "SURFACE" acis_data dxfattribs

/-- `add_extruded_surface`. -/
def add_extruded_surface (st : PyState) (acis_data : Option String)
    (dxfattribs : Option Nat) : PyState × Except Err Nat :=
  if st.version < DXF2007 then
    (st, Except.error (Err.versionError "EXTRUDEDSURFACE requires DXF version R2007+"))
  else
    add_acis_entiy st "EXTRUDEDSURFACE" acis_data dxfattribs

/-- `add_lofted_surface`. -/
def add_lofted_surface (st : PyState) (acis_data : Option String)
    (dxfattribs : Option Nat) : PyState × Except Err Nat :=
  if st.version < DXF2007 then
    (st, Except.error (Err.versionError "LOFTEDSURFACE requires DXF version R2007+"))
  else
    add_acis_entiy st "LOFTEDSURFACE" acis_data dxfattribs

/-- `add_revolved_surface`. -/
def add_revolved_surface (st : PyState) (acis_data : Option String)
    (dxfattribs : Option Nat) : PyState × Except Err Nat :=
  if st.version < DXF2007 then
    (st, Except.error (Err.versionError "REVOLVEDSURFACE requires DXF version R2007+"))
  else
    add_acis_entiy st "REVOLVEDSURFACE" acis_data dxfattribs

/-- `add_swept_surface`. -/
def add_swept_surface (st : PyState) (acis_data : Option String)
    (dxfattribs : Option Nat) : PyState × Except Err Nat :=
  if st.version < DXF2007 then
    (st, Except.error (Err.versionError "SWEPT requires DXF version R2007+"))
  else
    add_acis_entiy st "SWEPTSURFACE" acis_data dxfattribs

/-- The style-override object returned by the dimension methods: the
dimension entity index, the caller override dictionary reference, and the
user location recorded by `set_location` when one was given. -/
structure DimStyleOverride where
  entity : Nat
  override : Option Nat
  location : Option Vec3
deriving DecidableEq

/-- `add_linear_dim`: create the DIMENSION with the type-flag attribute
set, assemble the caller attributes with the computed fields, merge them
into the entity, wrap in a style override, optionally set the location. -/
def add_linear_dim (st : PyState) (base p1 p2 : Vec3) (location : Option Vec3)
    (text : String) (angle : ℚ) (text_rotation : Option ℚ) (dimstyle : String)
    (override : Option Nat) (dxfattribs : Option Nat) :
    PyState × Except Err DimStyleOverride :=
  let t1 := st.allocDict (Dict.insert [] "dimtype"
    (DxfValue.int (Int.lor DIM_LINEAR DIM_BLOCK_EXCLUSIVE)))
  let e1 := t1.1.newEntity "DIMENSION" t1.2
  let c1 := e1.1.copyArg dxfattribs
  let st4 := (((((c1.1.dictInsert c1.2 "dimstyle" (DxfValue.str dimstyle)).dictInsert
    c1.2 "defpoint" (DxfValue.vec base)).dictInsert
    c1.2 "text" (DxfValue.str text)).dictInsert
    c1.2 "defpoint2" (DxfValue.vec p1)).dictInsert
    c1.2 "defpoint3" (DxfValue.vec p2)).dictInsert
    c1.2 "angle" (DxfValue.num angle)
  let st5 := match text_rotation with
    | Option.none => st4
    | Option.some t => st4.dictInsert c1.2 "text_rotation" (DxfValue.num t)
  let st6 := st5.modEntity e1.2 (fun ent =>
    { ent with attrs := ent.attrs.update (st5.getDict c1.2) })
  (st6, Except.ok { entity := e1.2, override := override, location := location })

/-- Modelled from the spec: the vector operations of the external math
module (absent from the sources): angle of a vector in degrees, the
orthogonal vector, and normalization of a vector to a given length. -/
structure GeomOps where
  angle_deg : Vec3 → ℚ
  orthogonal : Vec3 → Vec3
  normalize : Vec3 → ℚ → Vec3

/-- `add_aligned_dim`: derive the angle and the baseline offset from the
measurement direction and forward to `add_linear_dim`. -/
def add_aligned_dim (ops : GeomOps) (st : PyState) (p1 p2 : Vec3) (distance : ℚ)
    (text : String) (dimstyle : String) (override : Option Nat)
    (dxfattribs : Option Nat) : PyState × Except Err DimStyleOverride :=
  let direction := p2.sub p1
  let angle := ops.angle_deg direction
  let base := ops.normalize (ops.orthogonal direction) distance
  add_linear_dim st base p1 p2 Option.none text angle Option.none dimstyle
    override dxfattribs

/-- `values.get(tag, "")` keyed by the popped tag value. -/
def valuesGet (values : List (String × String)) (tag : DxfValue) : String :=
  match tag with
  | DxfValue.str s => (List.lookup s values).getD ""
  | _ => ""

/-- One attribute instance generated by the auto-block composer: the
popped tag, the substituted text, the placeholder insert point, and the
full attribute set of the created ATTRIB. -/
structure AttribSpec where
  tag : DxfValue
  text : String
  inspoint : DxfValue
  attrs : Dict
deriving DecidableEq

/-- One step of `autofill`: `get_dxfattribs` copies the placeholder
attributes minus `prompt` and `handle`; `unpack` pops `tag` (looking the
text up in the values mapping, empty string when absent) and `insert`; the
block reference then adds an ATTRIB carrying the remaining attributes with
`tag`, `text` and `insert` set (as `add_attrib` assembles them). -/
def attrib_for_attdef (values : List (String × String)) (attdef : Dict) :
    Except Err AttribSpec :=
  let d0 := (attdef.eraseKey "prompt").eraseKey "handle"
  match d0.popReq "tag" with
  | Option.none => Except.error (Err.keyError "tag")
  | Option.some tp =>
      let text := valuesGet values tp.1
      match tp.2.popReq "insert" with
      | Option.none => Except.error (Err.keyError "insert")
      | Option.some ip =>
          Except.ok
            { tag := tp.1, text := text, inspoint := ip.1,
              attrs := ((ip.2.insert "tag" tp.1).insert
                "text" (DxfValue.str text)).insert "insert" ip.1 }

/-- `autofill`: one generated attribute instance per placeholder of the
block definition, in order. -/
def autofill (values : List (String × String)) :
    List Dict → Except Err (List AttribSpec)
  | [] => Except.ok []
  | a :: rest =>
      match attrib_for_attdef values a with
      | Except.error e => Except.error e
      | Except.ok s =>
          match autofill values rest with
          | Except.error e => Except.error e
          | Except.ok ss => Except.ok (s :: ss)

/-- The entity freshly logged by `new_entity` for attribute set `d`. -/
def freshEntity (etype : String) (d : Dict) : Entity :=
  { etype := etype, attrs := d, slots := [], vertices := [],
    mclosed := false, nclosed := false, acis := Option.none }

theorem set_concat_self {α : Type} (l : List α) (a b : α) :
    (l ++ [a]).set l.length b = l ++ [b] := by
  induction l with
  | nil => rfl
  | cons x xs ih => simp [ih]

theorem getD_concat_self {α : Type} (l : List α) (a dflt : α) :
    (l ++ [a]).getD l.length dflt = a := by
  induction l with
  | nil => rfl
  | cons x xs ih => simp [ih]

theorem getElem?_concat_lt {α : Type} (l : List α) (a : α) (r : Nat)
    (h : r < l.length) : (l ++ [a])[r]? = l[r]? := by
  rw [List.getElem?_append_left h]

theorem lookup_cons_self (k : String) (v : DxfValue) (l : List (String × DxfValue)) :
    List.lookup k ((k, v) :: l) = Option.some v := by
  simp [List.lookup]

theorem lookup_cons_ne (k k' : String) (v : DxfValue) (l : List (String × DxfValue))
    (h : k ≠ k') : List.lookup k ((k', v) :: l) = List.lookup k l := by
  simp [List.lookup, beq_eq_false_iff_ne.mpr h]

theorem lookup_filter_of_key (l : List (String × DxfValue)) (k : String)
    (pred : String × DxfValue → Bool) (h : ∀ v, pred (k, v) = true) :
    List.lookup k (l.filter pred) = List.lookup k l := by
  induction l with
  | nil => rfl
  | cons p rest ih =>
      obtain ⟨pk, pv⟩ := p
      by_cases hp : pred (pk, pv) = true
      · rw [List.filter_cons_of_pos hp]
        by_cases hk : k = pk
        · subst hk
          rw [lookup_cons_self, lookup_cons_self]
        · rw [lookup_cons_ne _ _ _ _ hk, lookup_cons_ne _ _ _ _ hk, ih]
      · have hne : k ≠ pk := fun hkk => hp (hkk ▸ h pv)
        rw [List.filter_cons_of_neg hp, ih, lookup_cons_ne _ _ _ _ hne]

theorem find_eraseKey_ne (d : Dict) (k k' : String) (h : k ≠ k') :
    (d.eraseKey k').find k = d.find k := by
  unfold Dict.eraseKey Dict.find
  exact lookup_filter_of_key d k _ (fun v => by simp [h])

theorem find_eraseKey_self (d : Dict) (k : String) :
    (d.eraseKey k).find k = Option.none := by
  induction d with
  | nil => rfl
  | cons p rest ih =>
      obtain ⟨pk, pv⟩ := p
      by_cases hp : pk = k
      · rw [show Dict.eraseKey ((pk, pv) :: rest) k = Dict.eraseKey rest k from by
          simp [Dict.eraseKey, List.filter_cons, hp]]
        exact ih
      · rw [show Dict.eraseKey ((pk, pv) :: rest) k =
            (pk, pv) :: Dict.eraseKey rest k from by
          simp [Dict.eraseKey, List.filter_cons, hp]]
        show List.lookup k ((pk, pv) :: Dict.eraseKey rest k) = Option.none
        rw [lookup_cons_ne _ _ _ _ (Ne.symm hp)]
        exact ih

theorem find_insert_self (d : Dict) (k : String) (v : DxfValue) :
    (d.insert k v).find k = Option.some v := by
  unfold Dict.insert Dict.find
  exact lookup_cons_self _ _ _

theorem find_insert_ne (d : Dict) (k k' : String) (v : DxfValue) (h : k ≠ k') :
    (d.insert k' v).find k = d.find k := by
  unfold Dict.insert
  show List.lookup k ((k', v) :: d.eraseKey k') = d.find k
  rw [lookup_cons_ne _ _ _ _ h]
  exact find_eraseKey_ne d k k' h

theorem lookup_append_some (l₁ l₂ : List (String × DxfValue)) (k : String)
    (v : DxfValue) (h : List.lookup k l₁ = Option.some v) :
    List.lookup k (l₁ ++ l₂) = Option.some v := by
  induction l₁ with
  | nil => simp [List.lookup] at h
  | cons p rest ih =>
      obtain ⟨pk, pv⟩ := p
      by_cases hk : k = pk
      · subst hk
        rw [lookup_cons_self] at h
        rw [List.cons_append, lookup_cons_self]
        exact h
      · rw [lookup_cons_ne _ _ _ _ hk] at h
        rw [List.cons_append, lookup_cons_ne _ _ _ _ hk]
        exact ih h

theorem lookup_append_none (l₁ l₂ : List (String × DxfValue)) (k : String)
    (h : List.lookup k l₁ = Option.none) :
    List.lookup k (l₁ ++ l₂) = List.lookup k l₂ := by
  induction l₁ with
  | nil => rfl
  | cons p rest ih =>
      obtain ⟨pk, pv⟩ := p
      by_cases hk : k = pk
      · subst hk
        rw [lookup_cons_self] at h
        simp at h
      · rw [lookup_cons_ne _ _ _ _ hk] at h
        rw [List.cons_append, lookup_cons_ne _ _ _ _ hk]
        exact ih h

theorem find_update_some (d new : Dict) (k : String) (v : DxfValue)
    (h : new.find k = Option.some v) :
    (d.update new).find k = Option.some v := by
  unfold Dict.update Dict.find
  exact lookup_append_some _ _ _ _ h

theorem find_update_none (d new : Dict) (k : String)
    (h : new.find k = Option.none) :
    (d.update new).find k = d.find k := by
  unfold Dict.update Dict.find
  rw [lookup_append_none _ _ _ h]
  exact lookup_filter_of_key d k _ (fun v => by
    simp only [Option.isNone_iff_eq_none]
    exact h)

theorem popReq_eq_some (d : Dict) (k : String) (p : DxfValue × Dict)
    (h : d.popReq k = Option.some p) :
    d.find k = Option.some p.1 ∧ p.2 = d.eraseKey k := by
  unfold Dict.popReq at h
  cases hf : d.find k with
  | none => rw [hf] at h; exact absurd h (by simp)
  | some v =>
      rw [hf] at h
      have h2 : (v, d.eraseKey k) = p := by simpa using h
      rw [← h2]
      exact ⟨rfl, rfl⟩

theorem add_point_eq (st : PyState) (loc : Vec3) (dref : Option Nat) :
    add_point st loc dref =
      ({ st with
          dicts := st.dicts ++ [(st.readArg dref).insert "location" (DxfValue.vec loc)],
          entities := st.entities ++
            [freshEntity "POINT" ((st.readArg dref).insert "location" (DxfValue.vec loc))] },
       Except.ok st.entities.length) := by
  simp [add_point, PyState.copyArg, PyState.allocDict, PyState.dictInsert,
        PyState.setDict, PyState.getDict, PyState.newEntity, set_concat_self,
        getD_concat_self, freshEntity]

/-- The type-flag attribute set a linear dimension entity is created with. -/
def dimBaseDict : Dict :=
  Dict.insert [] "dimtype" (DxfValue.int (Int.lor DIM_LINEAR DIM_BLOCK_EXCLUSIVE))

/-- The attribute set assembled by `add_linear_dim` from the caller
dictionary `d` and the computed fields. -/
def linearDimAttribs (d : Dict) (base p1 p2 : Vec3) (text : String) (angle : ℚ)
    (text_rotation : Option ℚ) (dimstyle : String) : Dict :=
  let d1 := (((((d.insert "dimstyle" (DxfValue.str dimstyle)).insert
    "defpoint" (DxfValue.vec base)).insert
    "text" (DxfValue.str text)).insert
    "defpoint2" (DxfValue.vec p1)).insert
    "defpoint3" (DxfValue.vec p2)).insert
    "angle" (DxfValue.num angle)
  match text_rotation with
  | Option.none => d1
  | Option.some t => d1.insert "text_rotation" (DxfValue.num t)

theorem add_line_eq (st : PyState) (pstart pend : Vec3) (dref : Option Nat) :
    add_line st pstart pend dref =
      ({ st with
          dicts := st.dicts ++
            [((st.readArg dref).insert "start" (DxfValue.vec pstart)).insert
              "end" (DxfValue.vec pend)],
          entities := st.entities ++
            [freshEntity "LINE" (((st.readArg dref).insert
              "start" (DxfValue.vec pstart)).insert "end" (DxfValue.vec pend))] },
       Except.ok st.entities.length) := by
  simp [add_line, PyState.copyArg, PyState.allocDict, PyState.dictInsert,
        PyState.setDict, PyState.getDict, PyState.newEntity, set_concat_self,
        getD_concat_self, freshEntity]

theorem add_ellipse_eq (st : PyState) (center major_axis : Vec3) (ratioVal : ℚ)
    (start_param end_param : ℚ) (dref : Option Nat)
    (hv : ¬ st.version < DXF2000) (hr : ¬ 1 < ratioVal) :
    add_ellipse st center major_axis ratioVal start_param end_param dref =
      ({ st with
          dicts := st.dicts ++
            [(((((st.readArg dref).insert "center" (DxfValue.vec center)).insert
              "major_axis" (DxfValue.vec major_axis)).insert
              "ratio" (DxfValue.num ratioVal)).insert
              "start_param" (DxfValue.num start_param)).insert
              "end_param" (DxfValue.num end_param)],
          entities := st.entities ++
            [freshEntity "ELLIPSE" ((((((st.readArg dref).insert
              "center" (DxfValue.vec center)).insert
              "major_axis" (DxfValue.vec major_axis)).insert
              "ratio" (DxfValue.num ratioVal)).insert
              "start_param" (DxfValue.num start_param)).insert
              "end_param" (DxfValue.num end_param))] },
       Except.ok st.entities.length) := by
  simp [add_ellipse, hv, hr, PyState.copyArg, PyState.allocDict, PyState.dictInsert,
        PyState.setDict, PyState.getDict, PyState.newEntity, set_concat_self,
        getD_concat_self, freshEntity]

theorem add_quadrilateral_bad (st : PyState) (etype : String) (pts : List Vec3)
    (dref : Option Nat) (h3 : pts.length ≠ 3) (h4 : pts.length ≠ 4) :
    add_quadrilateral st etype pts dref =
      ({ st with
          dicts := st.dicts ++ [st.readArg dref],
          entities := st.entities ++ [freshEntity etype (st.readArg dref)] },
       Except.error (Err.valueError "3 or 4 points required.")) := by
  simp [add_quadrilateral, four_points, h3, h4, PyState.copyArg, PyState.allocDict,
        PyState.getDict, PyState.newEntity, getD_concat_self, freshEntity]

theorem add_polyline2d_eq (st : PyState) (pts : List Vec3) (dref : Option Nat) :
    add_polyline2d st pts dref =
      ({ st with
          dicts := st.dicts ++ [(st.readArg dref).eraseKey "closed"],
          entities := st.entities ++
            [{ freshEntity "POLYLINE" ((st.readArg dref).eraseKey "closed") with
                mclosed := ((st.readArg dref).get "closed" (DxfValue.bool false)).truthy,
                vertices := pts }] },
       Except.ok st.entities.length) := by
  simp [add_polyline2d, PyState.copyArg, PyState.allocDict, PyState.dictPop,
        Dict.pop, PyState.setDict, PyState.getDict, PyState.newEntity,
        PyState.modEntity, set_concat_self, getD_concat_self, freshEntity]

theorem add_polyline3d_eq (st : PyState) (pts : List Vec3) (dref : Option Nat)
    (f : ℤ) (hf : (st.readArg dref).get "flags" (DxfValue.int 0) = DxfValue.int f) :
    add_polyline3d st pts dref =
      ({ st with
          dicts := (st.dicts ++
            [(st.readArg dref).insert "flags"
              (DxfValue.int (Int.lor f POLYLINE_3D_POLYLINE))]) ++
            [((st.readArg dref).insert "flags"
              (DxfValue.int (Int.lor f POLYLINE_3D_POLYLINE))).eraseKey "closed"],
          entities := st.entities ++
            [{ freshEntity "POLYLINE"
                (((st.readArg dref).insert "flags"
                  (DxfValue.int (Int.lor f POLYLINE_3D_POLYLINE))).eraseKey "closed") with
                mclosed := (((st.readArg dref).insert "flags"
                  (DxfValue.int (Int.lor f POLYLINE_3D_POLYLINE))).get
                    "closed" (DxfValue.bool false)).truthy,
                vertices := pts }] },
       Except.ok st.entities.length) := by
  simp only [add_polyline3d, PyState.copyArg, PyState.allocDict, PyState.getDict,
    getD_concat_self, hf, orFlags]
  rw [add_polyline2d_eq]
  simp [PyState.dictInsert, PyState.setDict, PyState.getDict, PyState.readArg,
    set_concat_self, getD_concat_self]

/-- The dictionary assembled by `add_polymesh` before the close flags are
popped: flags OR-ed, clamped counts set. -/
def polymeshAssembled (d : Dict) (m n : ℤ) (fv : DxfValue) : Dict :=
  ((d.insert "flags" fv).insert "m_count" (DxfValue.int (max m 2))).insert
    "n_count" (DxfValue.int (max n 2))

theorem add_polymesh_eq (st : PyState) (m n : ℤ) (dref : Option Nat)
    (f : ℤ) (hf : (st.readArg dref).get "flags" (DxfValue.int 0) = DxfValue.int f) :
    add_polymesh st (m, n) dref =
      ({ st with
          dicts := st.dicts ++
            [((polymeshAssembled (st.readArg dref) m n
                (DxfValue.int (Int.lor f POLYLINE_3D_POLYMESH))).eraseKey
                  "m_close").eraseKey "n_close"],
          entities := st.entities ++
            [{ freshEntity "POLYLINE"
                (((polymeshAssembled (st.readArg dref) m n
                  (DxfValue.int (Int.lor f POLYLINE_3D_POLYMESH))).eraseKey
                    "m_close").eraseKey "n_close") with
                vertices := List.replicate ((max m 2) * (max n 2)).toNat
                  { x := 0, y := 0, z := 0 },
                mclosed := ((polymeshAssembled (st.readArg dref) m n
                  (DxfValue.int (Int.lor f POLYLINE_3D_POLYMESH))).get
                    "m_close" (DxfValue.bool false)).truthy,
                nclosed := (((polymeshAssembled (st.readArg dref) m n
                  (DxfValue.int (Int.lor f POLYLINE_3D_POLYMESH))).eraseKey
                    "m_close").get "n_close" (DxfValue.bool false)).truthy }] },
       Except.ok st.entities.length) := by
  simp only [add_polymesh, PyState.copyArg, PyState.allocDict, PyState.getDict,
    getD_concat_self, hf, orFlags]
  simp [PyState.dictInsert, PyState.dictPop, Dict.pop, PyState.setDict,
    PyState.getDict, PyState.newEntity, PyState.modEntity, set_concat_self,
    getD_concat_self, freshEntity, polymeshAssembled]

theorem add_polyface_eq (st : PyState) (dref : Option Nat)
    (f : ℤ) (hf : (st.readArg dref).get "flags" (DxfValue.int 0) = DxfValue.int f) :
    add_polyface st dref =
      ({ st with
          dicts := st.dicts ++
            [(((st.readArg dref).insert "flags"
                (DxfValue.int (Int.lor f POLYLINE_POLYFACE))).eraseKey
                  "m_close").eraseKey "n_close"],
          entities := st.entities ++
            [{ freshEntity "POLYLINE"
                ((((st.readArg dref).insert "flags"
                  (DxfValue.int (Int.lor f POLYLINE_POLYFACE))).eraseKey
                    "m_close").eraseKey "n_close") with
                mclosed := (((st.readArg dref).insert "flags"
                  (DxfValue.int (Int.lor f POLYLINE_POLYFACE))).get
                    "m_close" (DxfValue.bool false)).truthy,
                nclosed := ((((st.readArg dref).insert "flags"
                  (DxfValue.int (Int.lor f POLYLINE_POLYFACE))).eraseKey
                    "m_close").get "n_close" (DxfValue.bool false)).truthy }] },
       Except.ok st.entities.length) := by
  simp only [add_polyface, PyState.copyArg, PyState.allocDict, PyState.getDict,
    getD_concat_self, hf, orFlags]
  simp [PyState.dictInsert, PyState.dictPop, Dict.pop, PyState.setDict,
    PyState.getDict, PyState.newEntity, PyState.modEntity, set_concat_self,
    getD_concat_self, freshEntity]

theorem add_acis_entiy_eq (st : PyState) (name : String) (acis_data : Option String)
    (dref : Option Nat) (hv : ¬ st.version < DXF2000) :
    add_acis_entiy st name acis_data dref =
      ({ st with
          dicts := st.dicts ++ [st.readArg dref],
          entities := st.entities ++
            [{ freshEntity name (st.readArg dref) with acis := acis_data }] },
       Except.ok st.entities.length) := by
  cases acis_data <;>
    simp [add_acis_entiy, hv, PyState.copyArg, PyState.allocDict, PyState.getDict,
      PyState.newEntity, PyState.modEntity, set_concat_self, getD_concat_self,
      freshEntity]


theorem set_concat2_self {α : Type} (l : List α) (a b c : α) :
    (l ++ [a, b]).set (l.length + 1) c = l ++ [a, c] := by
  induction l with
  | nil => rfl
  | cons x xs ih => simp [ih]

theorem getD_concat2_self {α : Type} (l : List α) (a b dflt : α) :
    (l ++ [a, b]).getD (l.length + 1) dflt = b := by
  induction l with
  | nil => rfl
  | cons x xs ih => simp [List.getD] at ih ⊢; exact ih

theorem getElem?_append_lt {α : Type} (l l₂ : List α) (r : Nat)
    (h : r < l.length) : (l ++ l₂)[r]? = l[r]? := by
  rw [List.getElem?_append_left h]

theorem getD_append_lt {α : Type} (l l₂ : List α) (r : Nat) (dflt : α)
    (h : r < l.length) : (l ++ l₂).getD r dflt = l.getD r dflt := by
  simp [List.getD, getElem?_append_lt _ _ _ h]

theorem add_linear_dim_eq (st : PyState) (base p1 p2 : Vec3) (loc : Option Vec3)
    (text : String) (angle : ℚ) (trot : Option ℚ) (dimstyle : String)
    (ov dref : Option Nat)
    (hdref : ∀ r, dref = Option.some r → r < st.dicts.length) :
    add_linear_dim st base p1 p2 loc text angle trot dimstyle ov dref =
      ({ st with
          dicts := (st.dicts ++ [dimBaseDict]) ++
            [linearDimAttribs (st.readArg dref) base p1 p2 text angle trot dimstyle],
          entities := st.entities ++
            [{ freshEntity "DIMENSION" dimBaseDict with
                attrs := dimBaseDict.update
                  (linearDimAttribs (st.readArg dref) base p1 p2 text angle
                    trot dimstyle) }] },
       Except.ok { entity := st.entities.length, override := ov, location := loc }) := by
  cases dref with
  | none =>
      cases trot <;>
        (simp only [add_linear_dim, PyState.copyArg, PyState.allocDict,
           PyState.readArg, PyState.dictInsert, PyState.setDict, PyState.getDict,
           PyState.newEntity, PyState.modEntity, dimBaseDict, linearDimAttribs,
           freshEntity];
         simp only [set_concat_self, getD_concat_self])
  | some r =>
      have hr : r < st.dicts.length := hdref r rfl
      cases trot <;>
        (simp only [add_linear_dim, PyState.copyArg, PyState.allocDict,
           PyState.readArg, PyState.dictInsert, PyState.setDict, PyState.getDict,
           PyState.newEntity, PyState.modEntity, dimBaseDict, linearDimAttribs,
           freshEntity];
         simp only [getD_append_lt _ _ _ _ hr, set_concat_self, getD_concat_self])

/-- A drawing state at version R2007 with an empty heap. -/
def st2007 : PyState := { version := DXF2007, dicts := [], entities := [] }

/-- A drawing state at version R2000 with an empty heap. -/
def stR2000 : PyState := { version := DXF2000, dicts := [], entities := [] }

/-- Sample points. -/
def v0 : Vec3 := { x := 0, y := 0, z := 0 }

def v1 : Vec3 := { x := 1, y := 0, z := 0 }

def v2 : Vec3 := { x := 0, y := 1, z := 0 }

def v3 : Vec3 := { x := 1, y := 1, z := 0 }

/-- C3: quadrilateral point normalization maps a 3-point input [A,B,C] to
exactly [A,B,C,C] (the fourth slot duplicates the last input point), maps a
4-point input [A,B,C,D] to itself unchanged, and fails with a ValueError for
every input whose length is not 3 or 4. -/
theorem four_points_normalization :
    (∀ a b c : Vec3, four_points [a, b, c] = Except.ok [a, b, c, c]) ∧
    (∀ a b c d : Vec3, four_points [a, b, c, d] = Except.ok [a, b, c, d]) ∧
    (∀ pts : List Vec3, pts.length ≠ 3 → pts.length ≠ 4 →
      four_points pts = Except.error (Err.valueError "3 or 4 points required.")) := by
  refine ⟨fun a b c => ?_, fun a b c d => ?_, fun pts h3 h4 => ?_⟩
  · simp [four_points]
  · simp [four_points]
  · simp [four_points, h3, h4]

/-- Witness for C3: a 2-point input is rejected. -/
theorem four_points_normalization_witness :
    four_points [v0, v1] = Except.error (Err.valueError "3 or 4 points required.") :=
  four_points_normalization.2.2 [v0, v1] (by decide) (by decide)

/-- C1 counterexample: calling `add_solid` with only 2 points does raise the
ValueError, but an entity HAS been created: `new_entity` runs before the
point generator is consumed, so the claim that no entity is created (that
`new_entity` is never invoked) is false. -/
theorem add_solid_two_points_creates_entity :
    (add_solid st2007 [v0, v1] Option.none).2 =
        Except.error (Err.valueError "3 or 4 points required.") ∧
    (add_solid st2007 [v0, v1] Option.none).1.entities.length = 1 := by
  constructor <;> rfl

/-- C1 (amended): for a point sequence whose length is not 3 or 4, each
quadrilateral creation call fails with the ValueError and assigns no vertex
slot, but `new_entity` has already been invoked once: exactly one entity of
the requested type, carrying the merged caller attributes, is created
before the error is raised. -/
theorem quadrilateral_bad_count_fails_after_creation :
    ∀ (st : PyState) (pts : List Vec3) (dref : Option Nat),
      pts.length ≠ 3 → pts.length ≠ 4 →
      add_solid st pts dref =
        ({ st with
            dicts := st.dicts ++ [st.readArg dref],
            entities := st.entities ++ [freshEntity "SOLID" (st.readArg dref)] },
         Except.error (Err.valueError "3 or 4 points required.")) ∧
      add_trace st pts dref =
        ({ st with
            dicts := st.dicts ++ [st.readArg dref],
            entities := st.entities ++ [freshEntity "TRACE" (st.readArg dref)] },
         Except.error (Err.valueError "3 or 4 points required.")) ∧
      add_3dface st pts dref =
        ({ st with
            dicts := st.dicts ++ [st.readArg dref],
            entities := st.entities ++ [freshEntity "3DFACE" (st.readArg dref)] },
         Except.error (Err.valueError "3 or 4 points required.")) :=
  fun st pts dref h3 h4 =>
    ⟨add_quadrilateral_bad st "SOLID" pts dref h3 h4,
     add_quadrilateral_bad st "TRACE" pts dref h3 h4,
     add_quadrilateral_bad st "3DFACE" pts dref h3 h4⟩

/-- Witness for the amended C1 at a concrete 1-point input. -/
theorem quadrilateral_bad_count_fails_after_creation_witness :
    add_solid st2007 [v0] Option.none =
      ({ st2007 with
          dicts := [[]],
          entities := [freshEntity "SOLID" []] },
       Except.error (Err.valueError "3 or 4 points required.")) :=
  (quadrilateral_bad_count_fails_after_creation st2007 [v0] Option.none
    (by decide) (by decide)).1

/-- C8: with the R2000 gate passed, `add_ellipse` with ratio above 1 always
fails with a ValueError creating no entity, and with ratio equal to 1 always
passes the ratio check and creates the ELLIPSE, for every center, major
axis, start and end parameter. -/
theorem add_ellipse_ratio_check :
    ∀ (st : PyState) (center major_axis : Vec3) (ratioVal start_param end_param : ℚ)
      (dref : Option Nat), ¬ st.version < DXF2000 →
      (1 < ratioVal →
        add_ellipse st center major_axis ratioVal start_param end_param dref =
          (st, Except.error (Err.valueError "Parameter ratio has to be <= 1.0"))) ∧
      (ratioVal = 1 →
        (add_ellipse st center major_axis ratioVal start_param end_param dref).2 =
          Except.ok st.entities.length ∧
        (add_ellipse st center major_axis ratioVal start_param end_param
          dref).1.entities.length = st.entities.length + 1) := by
  intro st c a rv sp ep dref hv
  constructor
  · intro hrv
    simp [add_ellipse, hv, hrv]
  · intro hrv
    rw [add_ellipse_eq st c a rv sp ep dref hv (by rw [hrv]; norm_num)]
    simp

/-- Witness for C8: ratio 2 is rejected, ratio 1 creates the entity. -/
theorem add_ellipse_ratio_check_witness :
    add_ellipse st2007 v0 v1 2 0 0 Option.none =
      (st2007, Except.error (Err.valueError "Parameter ratio has to be <= 1.0")) ∧
    (add_ellipse st2007 v0 v1 1 0 0 Option.none).2 = Except.ok 0 :=
  ⟨(add_ellipse_ratio_check st2007 v0 v1 2 0 0 Option.none (by decide)).1 (by norm_num),
   ((add_ellipse_ratio_check st2007 v0 v1 1 0 0 Option.none (by decide)).2 rfl).1⟩

/-- C7: every SURFACE-family creation call fails with a VersionError and
creates no entity when the active version is below R2007, and passes the
gate (the entity is created with the assembled attributes) at R2007 or
later. -/
theorem surface_family_version_gate :
    ∀ (st : PyState) (acis_data : Option String) (dref : Option Nat),
      ((st.version < DXF2007 → add_surface st acis_data dref =
          (st, Except.error (Err.versionError "SURFACE requires DXF version R2007+"))) ∧
       (¬ st.version < DXF2007 → add_surface st acis_data dref =
          ({ st with
              dicts := st.dicts ++ [st.readArg dref],
              entities := st.entities ++
                [{ freshEntity "SURFACE" (st.readArg dref) with acis := acis_data }] },
           Except.ok st.entities.length))) ∧
      ((st.version < DXF2007 → add_extruded_surface st acis_data dref =
          (st, Except.error
            (Err.versionError "EXTRUDEDSURFACE requires DXF version R2007+"))) ∧
       (¬ st.version < DXF2007 → add_extruded_surface st acis_data dref =
          ({ st with
              dicts := st.dicts ++ [st.readArg dref],
              entities := st.entities ++
                [{ freshEntity "EXTRUDEDSURFACE" (st.readArg dref) with acis := acis_data }] },
           Except.ok st.entities.length))) ∧
      ((st.version < DXF2007 → add_lofted_surface st acis_data dref =
          (st, Except.error
            (Err.versionError "LOFTEDSURFACE requires DXF version R2007+"))) ∧
       (¬ st.version < DXF2007 → add_lofted_surface st acis_data dref =
          ({ st with
              dicts := st.dicts ++ [st.readArg dref],
              entities := st.entities ++
                [{ freshEntity "LOFTEDSURFACE" (st.readArg dref) with acis := acis_data }] },
           Except.ok st.entities.length))) ∧
      ((st.version < DXF2007 → add_revolved_surface st acis_data dref =
          (st, Except.error
            (Err.versionError "REVOLVEDSURFACE requires DXF version R2007+"))) ∧
       (¬ st.version < DXF2007 → add_revolved_surface st acis_data dref =
          ({ st with
              dicts := st.dicts ++ [st.readArg dref],
              entities := st.entities ++
                [{ freshEntity "REVOLVEDSURFACE" (st.readArg dref) with acis := acis_data }] },
           Except.ok st.entities.length))) ∧
      ((st.version < DXF2007 → add_swept_surface st acis_data dref =
          (st, Except.error (Err.versionError "SWEPT requires DXF version R2007+"))) ∧
       (¬ st.version < DXF2007 → add_swept_surface st acis_data dref =
          ({ st with
              dicts := st.dicts ++ [st.readArg dref],
              entities := st.entities ++
                [{ freshEntity "SWEPTSURFACE" (st.readArg dref) with acis := acis_data }] },
           Except.ok st.entities.length))) := by
  intro st acis_data dref
  have h2000 : ¬ st.version < DXF2007 → ¬ st.version < DXF2000 := by
    unfold DXF2000 DXF2007
    omega
  refine ⟨⟨fun hA => ?_, fun hB => ?_⟩, ⟨fun hC => ?_, fun hD => ?_⟩,
    ⟨fun hE => ?_, fun hF => ?_⟩, ⟨fun hG => ?_, fun hH => ?_⟩,
    ⟨fun hJ => ?_, fun hK => ?_⟩⟩ <;>
    first
      | (simp only [add_surface, add_extruded_surface, add_lofted_surface,
          add_revolved_surface, add_swept_surface,
          if_neg ‹¬ st.version < DXF2007›];
         exact add_acis_entiy_eq st _ acis_data dref
           (h2000 ‹¬ st.version < DXF2007›))
      | simp [add_surface, add_extruded_surface, add_lofted_surface,
          add_revolved_surface, add_swept_surface, ‹st.version < DXF2007›]

/-- Witness for C7: SURFACE is rejected at R2000 and created at R2007. -/
theorem surface_family_version_gate_witness :
    add_surface stR2000 Option.none Option.none =
      (stR2000, Except.error (Err.versionError "SURFACE requires DXF version R2007+")) ∧
    add_surface st2007 Option.none Option.none =
      ({ st2007 with
          dicts := [[]],
          entities := [{ freshEntity "SURFACE" [] with acis := Option.none }] },
       Except.ok 0) :=
  ⟨(surface_family_version_gate stR2000 Option.none Option.none).1.1 (by decide),
   (surface_family_version_gate st2007 Option.none Option.none).1.2 (by decide)⟩

/-- C2: aligned dimensioning is exactly linear dimensioning with the
computed baseline (the orthogonal of p2 - p1 normalized to the given
distance) and the computed angle (the angle in degrees of p2 - p1): the
whole resulting state and style override coincide for any implementation
of the external vector operations. -/
theorem add_aligned_dim_is_linear :
    ∀ (ops : GeomOps) (st : PyState) (p1 p2 : Vec3) (distance : ℚ)
      (text dimstyle : String) (override dxfattribs : Option Nat), p1 ≠ p2 →
      add_aligned_dim ops st p1 p2 distance text dimstyle override dxfattribs =
        add_linear_dim st (ops.normalize (ops.orthogonal (p2.sub p1)) distance) p1 p2
          Option.none text (ops.angle_deg (p2.sub p1)) Option.none dimstyle override
          dxfattribs :=
  fun _ _ _ _ _ _ _ _ _ _ => rfl

/-- A sample implementation of the external vector operations. -/
def demoOps : GeomOps :=
  { angle_deg := fun _ => 0,
    orthogonal := fun v => { x := -v.y, y := v.x, z := v.z },
    normalize := fun v _ => v }

/-- Witness for C2 at concrete distinct points. -/
theorem add_aligned_dim_is_linear_witness :
    add_aligned_dim demoOps st2007 v0 v1 5 "<>" "EZDXF" Option.none Option.none =
      add_linear_dim st2007 (demoOps.normalize (demoOps.orthogonal (v1.sub v0)) 5) v0 v1
        Option.none "<>" (demoOps.angle_deg (v1.sub v0)) Option.none "EZDXF"
        Option.none Option.none :=
  add_aligned_dim_is_linear demoOps st2007 v0 v1 5 "<>" "EZDXF" Option.none Option.none
    (by decide)

theorem linearDimAttribs_find_trot_none (d : Dict) (base p1 p2 : Vec3)
    (text : String) (angle : ℚ) (dimstyle : String) :
    (linearDimAttribs d base p1 p2 text angle Option.none dimstyle).find
        "text_rotation" = d.find "text_rotation" := by
  simp only [linearDimAttribs]
  rw [find_insert_ne _ _ _ _ (by decide), find_insert_ne _ _ _ _ (by decide),
    find_insert_ne _ _ _ _ (by decide), find_insert_ne _ _ _ _ (by decide),
    find_insert_ne _ _ _ _ (by decide), find_insert_ne _ _ _ _ (by decide)]

theorem dimBaseDict_find_trot : dimBaseDict.find "text_rotation" = Option.none := by
  rfl

/-- C5: in `add_linear_dim`, a provided `text_rotation` is an absolute
override: the resulting dimension attribute set carries exactly that value
under `text_rotation`, for every angle; when `text_rotation` is not
provided, this layer sets no `text_rotation` attribute (the resulting set
carries exactly whatever the caller dictionary already had). -/
theorem add_linear_dim_text_rotation_override :
    ∀ (st : PyState) (base p1 p2 : Vec3) (loc : Option Vec3) (text : String)
      (angle : ℚ) (dimstyle : String) (ov dref : Option Nat),
      (∀ r, dref = Option.some r → r < st.dicts.length) →
      (∀ t : ℚ,
        ((add_linear_dim st base p1 p2 loc text angle (Option.some t) dimstyle ov
            dref).1.entityAt st.entities.length).attrs.find "text_rotation" =
          Option.some (DxfValue.num t)) ∧
      (((add_linear_dim st base p1 p2 loc text angle Option.none dimstyle ov
          dref).1.entityAt st.entities.length).attrs.find "text_rotation" =
        (st.readArg dref).find "text_rotation") ∧
      (∀ trot : Option ℚ,
        (add_linear_dim st base p1 p2 loc text angle trot dimstyle ov dref).2 =
          Except.ok { entity := st.entities.length, override := ov, location := loc }) := by
  intro st base p1 p2 loc text angle dimstyle ov dref hdref
  refine ⟨fun t => ?_, ?_, fun trot => ?_⟩
  · rw [add_linear_dim_eq _ _ _ _ _ _ _ _ _ _ _ hdref]
    simp only [PyState.entityAt, getD_concat_self]
    apply find_update_some
    simp only [linearDimAttribs]
    exact find_insert_self _ _ _
  · rw [add_linear_dim_eq _ _ _ _ _ _ _ _ _ _ _ hdref]
    simp only [PyState.entityAt, getD_concat_self]
    have hnew := linearDimAttribs_find_trot_none (st.readArg dref) base p1 p2 text
      angle dimstyle
    cases hc : (st.readArg dref).find "text_rotation" with
    | some v =>
        rw [hc] at hnew
        rw [find_update_some _ _ _ _ hnew]
    | none =>
        rw [hc] at hnew
        rw [find_update_none _ _ _ hnew, dimBaseDict_find_trot]
  · rw [add_linear_dim_eq _ _ _ _ _ _ _ _ _ _ _ hdref]

/-- A state holding one caller dictionary. -/
def stDict : PyState :=
  { version := DXF2007, dicts := [[("color", DxfValue.int 1)]], entities := [] }

/-- Witness for C5: with a live caller dictionary, a provided text rotation
of 15 is stored verbatim and an omitted one leaves the attribute unset. -/
theorem add_linear_dim_text_rotation_override_witness :
    ((add_linear_dim stDict v0 v0 v1 Option.none "<>" 0 (Option.some 15) "EZDXF"
        Option.none (Option.some 0)).1.entityAt 0).attrs.find "text_rotation" =
      Option.some (DxfValue.num 15) ∧
    ((add_linear_dim stDict v0 v0 v1 Option.none "<>" 0 Option.none "EZDXF"
        Option.none (Option.some 0)).1.entityAt 0).attrs.find "text_rotation" =
      Option.none :=
  ⟨(add_linear_dim_text_rotation_override stDict v0 v0 v1 Option.none "<>" 0 "EZDXF"
      Option.none (Option.some 0)
      (fun r hr => by rw [← Option.some.inj hr]; decide)).1 15,
   (add_linear_dim_text_rotation_override stDict v0 v0 v1 Option.none "<>" 0 "EZDXF"
      Option.none (Option.some 0)
      (fun r hr => by rw [← Option.some.inj hr]; decide)).2.1⟩

theorem add_polyline3d_flags (st : PyState) (pts : List Vec3) (dref : Option Nat)
    (f : ℤ) (hf : (st.readArg dref).get "flags" (DxfValue.int 0) = DxfValue.int f) :
    (add_polyline3d st pts dref).2 = Except.ok st.entities.length ∧
    ((add_polyline3d st pts dref).1.entityAt st.entities.length).attrs.find "flags"
      = Option.some (DxfValue.int (Int.lor f POLYLINE_3D_POLYLINE)) := by
  rw [add_polyline3d_eq st pts dref f hf]
  refine ⟨rfl, ?_⟩
  simp only [PyState.entityAt, getD_concat_self, freshEntity]
  rw [find_eraseKey_ne _ "flags" "closed" (by decide), find_insert_self]

theorem add_polymesh_flags (st : PyState) (m n : ℤ) (dref : Option Nat)
    (f : ℤ) (hf : (st.readArg dref).get "flags" (DxfValue.int 0) = DxfValue.int f) :
    (add_polymesh st (m, n) dref).2 = Except.ok st.entities.length ∧
    ((add_polymesh st (m, n) dref).1.entityAt st.entities.length).attrs.find "flags"
      = Option.some (DxfValue.int (Int.lor f POLYLINE_3D_POLYMESH)) := by
  rw [add_polymesh_eq st m n dref f hf]
  refine ⟨rfl, ?_⟩
  simp only [PyState.entityAt, getD_concat_self, polymeshAssembled, freshEntity]
  rw [find_eraseKey_ne _ "flags" "n_close" (by decide),
    find_eraseKey_ne _ "flags" "m_close" (by decide),
    find_insert_ne _ "flags" "n_count" _ (by decide),
    find_insert_ne _ "flags" "m_count" _ (by decide), find_insert_self]

theorem add_polyface_flags (st : PyState) (dref : Option Nat)
    (f : ℤ) (hf : (st.readArg dref).get "flags" (DxfValue.int 0) = DxfValue.int f) :
    (add_polyface st dref).2 = Except.ok st.entities.length ∧
    ((add_polyface st dref).1.entityAt st.entities.length).attrs.find "flags"
      = Option.some (DxfValue.int (Int.lor f POLYLINE_POLYFACE)) := by
  rw [add_polyface_eq st dref f hf]
  refine ⟨rfl, ?_⟩
  simp only [PyState.entityAt, getD_concat_self, freshEntity]
  rw [find_eraseKey_ne _ "flags" "n_close" (by decide),
    find_eraseKey_ne _ "flags" "m_close" (by decide), find_insert_self]

/-- C4: `add_polyline3d`, `add_polymesh` and `add_polyface` store, under
`flags`, the caller flags value bitwise OR-ed with the respective mode bit:
every bit set in the caller value remains set, and the mode bit is set even
when the caller supplied no flags entry (the default caller value is 0). -/
theorem polyline_mode_flags_or :
    (∀ (st : PyState) (pts : List Vec3) (dref : Option Nat) (f : ℤ),
      (st.readArg dref).get "flags" (DxfValue.int 0) = DxfValue.int f →
      (add_polyline3d st pts dref).2 = Except.ok st.entities.length ∧
      ((add_polyline3d st pts dref).1.entityAt st.entities.length).attrs.find "flags"
        = Option.some (DxfValue.int (Int.lor f POLYLINE_3D_POLYLINE)) ∧
      (∀ i, f.testBit i = true → (Int.lor f POLYLINE_3D_POLYLINE).testBit i = true) ∧
      (Int.lor f POLYLINE_3D_POLYLINE).testBit 3 = true) ∧
    (∀ (st : PyState) (m n : ℤ) (dref : Option Nat) (f : ℤ),
      (st.readArg dref).get "flags" (DxfValue.int 0) = DxfValue.int f →
      (add_polymesh st (m, n) dref).2 = Except.ok st.entities.length ∧
      ((add_polymesh st (m, n) dref).1.entityAt st.entities.length).attrs.find "flags"
        = Option.some (DxfValue.int (Int.lor f POLYLINE_3D_POLYMESH)) ∧
      (∀ i, f.testBit i = true → (Int.lor f POLYLINE_3D_POLYMESH).testBit i = true) ∧
      (Int.lor f POLYLINE_3D_POLYMESH).testBit 4 = true) ∧
    (∀ (st : PyState) (dref : Option Nat) (f : ℤ),
      (st.readArg dref).get "flags" (DxfValue.int 0) = DxfValue.int f →
      (add_polyface st dref).2 = Except.ok st.entities.length ∧
      ((add_polyface st dref).1.entityAt st.entities.length).attrs.find "flags"
        = Option.some (DxfValue.int (Int.lor f POLYLINE_POLYFACE)) ∧
      (∀ i, f.testBit i = true → (Int.lor f POLYLINE_POLYFACE).testBit i = true) ∧
      (Int.lor f POLYLINE_POLYFACE).testBit 6 = true) := by
  refine ⟨fun st pts dref f hf => ?_, fun st m n dref f hf => ?_, fun st dref f hf => ?_⟩
  · refine ⟨(add_polyline3d_flags st pts dref f hf).1,
      (add_polyline3d_flags st pts dref f hf).2, fun i hi => ?_, ?_⟩
    · rw [Int.testBit_lor, hi, Bool.true_or]
    · rw [Int.testBit_lor]
      simp [show POLYLINE_3D_POLYLINE.testBit 3 = true from by decide]
  · refine ⟨(add_polymesh_flags st m n dref f hf).1,
      (add_polymesh_flags st m n dref f hf).2, fun i hi => ?_, ?_⟩
    · rw [Int.testBit_lor, hi, Bool.true_or]
    · rw [Int.testBit_lor]
      simp [show POLYLINE_3D_POLYMESH.testBit 4 = true from by decide]
  · refine ⟨(add_polyface_flags st dref f hf).1,
      (add_polyface_flags st dref f hf).2, fun i hi => ?_, ?_⟩
    · rw [Int.testBit_lor, hi, Bool.true_or]
    · rw [Int.testBit_lor]
      simp [show POLYLINE_POLYFACE.testBit 6 = true from by decide]

/-- A state holding a caller dictionary with flags bit 0 set. -/
def stFlags : PyState :=
  { version := DXF2007, dicts := [[("flags", DxfValue.int 1)]], entities := [] }

/-- Witness for C4: caller flags 1 become 9 under the 3D-polyline bit. -/
theorem polyline_mode_flags_or_witness :
    ((add_polyline3d stFlags [] (Option.some 0)).1.entityAt 0).attrs.find "flags"
      = Option.some (DxfValue.int 9) ∧
    (Int.lor 1 POLYLINE_3D_POLYLINE).testBit 0 = true :=
  ⟨by
    have h := (polyline_mode_flags_or.1 stFlags [] (Option.some 0) 1 (by rfl)).2.1
    simpa using h,
   (polyline_mode_flags_or.1 stFlags [] (Option.some 0) 1 (by rfl)).2.2.1 0 (by decide)⟩

/-- C10: `add_polymesh` clamps both requested dimensions to a minimum of 2:
the created POLYLINE carries `m_count = max m 2` and `n_count = max n 2`,
and exactly `m_count * n_count` vertices, each initialized to the origin,
are appended to the mesh. -/
theorem add_polymesh_clamps_and_fills :
    ∀ (st : PyState) (m n : ℤ) (dref : Option Nat) (f : ℤ),
      (st.readArg dref).get "flags" (DxfValue.int 0) = DxfValue.int f →
      (add_polymesh st (m, n) dref).2 = Except.ok st.entities.length ∧
      ((add_polymesh st (m, n) dref).1.entityAt st.entities.length).attrs.find
          "m_count" = Option.some (DxfValue.int (max m 2)) ∧
      ((add_polymesh st (m, n) dref).1.entityAt st.entities.length).attrs.find
          "n_count" = Option.some (DxfValue.int (max n 2)) ∧
      ((add_polymesh st (m, n) dref).1.entityAt st.entities.length).vertices =
        List.replicate ((max m 2) * (max n 2)).toNat { x := 0, y := 0, z := 0 } := by
  intro st m n dref f hf
  rw [add_polymesh_eq st m n dref f hf]
  refine ⟨rfl, ?_, ?_, ?_⟩
  · simp only [PyState.entityAt, getD_concat_self, polymeshAssembled, freshEntity]
    rw [find_eraseKey_ne _ "m_count" "n_close" (by decide),
      find_eraseKey_ne _ "m_count" "m_close" (by decide),
      find_insert_ne _ "m_count" "n_count" _ (by decide), find_insert_self]
  · simp only [PyState.entityAt, getD_concat_self, polymeshAssembled, freshEntity]
    rw [find_eraseKey_ne _ "n_count" "n_close" (by decide),
      find_eraseKey_ne _ "n_count" "m_close" (by decide), find_insert_self]
  · simp only [PyState.entityAt, getD_concat_self, freshEntity]

/-- Witness for C10: size (1, 5) is clamped to 2 x 5 and 10 origin
vertices are appended. -/
theorem add_polymesh_clamps_and_fills_witness :
    ((add_polymesh stDict (1, 5) (Option.some 0)).1.entityAt 0).attrs.find
        "m_count" = Option.some (DxfValue.int 2) ∧
    ((add_polymesh stDict (1, 5) (Option.some 0)).1.entityAt 0).vertices =
      List.replicate 10 { x := 0, y := 0, z := 0 } := by
  have h := add_polymesh_clamps_and_fills stDict 1 5 (Option.some 0) 0 (by rfl)
  exact ⟨by simpa using h.2.1, by simpa using h.2.2.2⟩

/-- The guarantee for one generated attribute instance relative to its
placeholder: no prompt, no handle, the substituted text under the
placeholder tag, and the placeholder insert point. -/
def attribCopied (values : List (String × String)) (a : Dict) (s : AttribSpec) : Prop :=
  s.attrs.find "prompt" = Option.none ∧
  s.attrs.find "handle" = Option.none ∧
  (∃ tagv, a.find "tag" = Option.some tagv ∧
    s.text = valuesGet values tagv ∧
    s.attrs.find "text" = Option.some (DxfValue.str (valuesGet values tagv))) ∧
  (∃ insv, a.find "insert" = Option.some insv ∧ s.inspoint = insv ∧
    s.attrs.find "insert" = Option.some insv)

theorem attrib_for_attdef_spec (values : List (String × String)) (a : Dict)
    (s : AttribSpec) (h : attrib_for_attdef values a = Except.ok s) :
    attribCopied values a s := by
  simp only [attrib_for_attdef] at h
  cases h1 : ((a.eraseKey "prompt").eraseKey "handle").popReq "tag" with
  | none => rw [h1] at h; exact absurd h (by simp)
  | some tp =>
      rw [h1] at h
      dsimp only at h
      obtain ⟨htag, herase⟩ := popReq_eq_some _ _ _ h1
      cases h2 : tp.2.popReq "insert" with
      | none => rw [h2] at h; exact absurd h (by simp)
      | some ip =>
          rw [h2] at h
          dsimp only at h
          obtain ⟨hins, herase2⟩ := popReq_eq_some _ _ _ h2
          have hs :
              ({ tag := tp.1,
                 text := valuesGet values tp.1,
                 inspoint := ip.1,
                 attrs := ((ip.2.insert "tag" tp.1).insert "text"
                   (DxfValue.str (valuesGet values tp.1))).insert "insert" ip.1 }
                : AttribSpec) = s := by
            simpa using h
          rw [← hs]
          rw [find_eraseKey_ne _ "tag" "handle" (by decide),
            find_eraseKey_ne _ "tag" "prompt" (by decide)] at htag
          rw [herase, find_eraseKey_ne _ "insert" "tag" (by decide),
            find_eraseKey_ne _ "insert" "handle" (by decide),
            find_eraseKey_ne _ "insert" "prompt" (by decide)] at hins
          refine ⟨?_, ?_, ⟨tp.1, htag, rfl, ?_⟩, ⟨ip.1, hins, rfl, ?_⟩⟩
          · show (((ip.2.insert "tag" tp.1).insert "text"
              (DxfValue.str (valuesGet values tp.1))).insert "insert" ip.1).find
                "prompt" = Option.none
            rw [find_insert_ne _ "prompt" "insert" _ (by decide),
              find_insert_ne _ "prompt" "text" _ (by decide),
              find_insert_ne _ "prompt" "tag" _ (by decide),
              herase2, find_eraseKey_ne _ "prompt" "insert" (by decide),
              herase, find_eraseKey_ne _ "prompt" "tag" (by decide),
              find_eraseKey_ne _ "prompt" "handle" (by decide),
              find_eraseKey_self]
          · show (((ip.2.insert "tag" tp.1).insert "text"
              (DxfValue.str (valuesGet values tp.1))).insert "insert" ip.1).find
                "handle" = Option.none
            rw [find_insert_ne _ "handle" "insert" _ (by decide),
              find_insert_ne _ "handle" "text" _ (by decide),
              find_insert_ne _ "handle" "tag" _ (by decide),
              herase2, find_eraseKey_ne _ "handle" "insert" (by decide),
              herase, find_eraseKey_ne _ "handle" "tag" (by decide),
              find_eraseKey_self]
          · show (((ip.2.insert "tag" tp.1).insert "text"
              (DxfValue.str (valuesGet values tp.1))).insert "insert" ip.1).find
                "text" = Option.some (DxfValue.str (valuesGet values tp.1))
            rw [find_insert_ne _ "text" "insert" _ (by decide), find_insert_self]
          · show (((ip.2.insert "tag" tp.1).insert "text"
              (DxfValue.str (valuesGet values tp.1))).insert "insert" ip.1).find
                "insert" = Option.some ip.1
            exact find_insert_self _ _ _

/-- C6: for every block definition, `autofill` produces one attribute
instance per placeholder whose copied attribute set contains neither a
prompt nor a handle key, whose text is the tag value looked up in the
values mapping (empty string when absent), and whose insert position is
the placeholder's own declared insert point. -/
theorem autofill_copies_attribs :
    ∀ (values : List (String × String)) (attdefs : List Dict)
      (specs : List AttribSpec),
      autofill values attdefs = Except.ok specs →
      List.Forall₂ (attribCopied values) attdefs specs := by
  intro values attdefs
  induction attdefs with
  | nil =>
      intro specs h
      have hs : ([] : List AttribSpec) = specs := by simpa [autofill] using h
      rw [← hs]
      exact List.Forall₂.nil
  | cons a rest ih =>
      intro specs h
      unfold autofill at h
      cases h1 : attrib_for_attdef values a with
      | error e => rw [h1] at h; exact absurd h (by simp)
      | ok s =>
          rw [h1] at h
          cases h2 : autofill values rest with
          | error e => rw [h2] at h; exact absurd h (by simp)
          | ok ss =>
              rw [h2] at h
              have hs : s :: ss = specs := by simpa using h
              rw [← hs]
              exact List.Forall₂.cons (attrib_for_attdef_spec values a s h1) (ih ss h2)

/-- A sample values mapping. -/
def demoValues : List (String × String) := [("NAME", "Alice")]

/-- A sample block definition with one attribute placeholder. -/
def demoAttdefs : List Dict :=
  [[("prompt", DxfValue.str "Enter name"), ("tag", DxfValue.str "NAME"),
    ("handle", DxfValue.str "1F"), ("insert", DxfValue.vec { x := 1, y := 2, z := 0 }),
    ("height", DxfValue.num 1)]]

/-- The attribute instances generated for `demoAttdefs`. -/
def demoSpecs : List AttribSpec :=
  [{ tag := DxfValue.str "NAME", text := "Alice",
     inspoint := DxfValue.vec { x := 1, y := 2, z := 0 },
     attrs := [("insert", DxfValue.vec { x := 1, y := 2, z := 0 }),
               ("text", DxfValue.str "Alice"), ("tag", DxfValue.str "NAME"),
               ("height", DxfValue.num 1)] }]

/-- Witness for C6 at the sample block. -/
theorem autofill_copies_attribs_witness :
    List.Forall₂ (attribCopied demoValues) demoAttdefs demoSpecs :=
  autofill_copies_attribs demoValues demoAttdefs demoSpecs (by rfl)

theorem orFlags_ok (v : DxfValue) (bit : ℤ) (fv : DxfValue)
    (h : orFlags v bit = Except.ok fv) :
    ∃ n : ℤ, v = DxfValue.int n ∧ fv = DxfValue.int (Int.lor n bit) := by
  cases v with
  | int n =>
      refine ⟨n, rfl, ?_⟩
      simpa [orFlags] using h.symm
  | num q => exact absurd h (by simp [orFlags])
  | str s => exact absurd h (by simp [orFlags])
  | vec w => exact absurd h (by simp [orFlags])
  | bool b => exact absurd h (by simp [orFlags])

theorem add_point_preserves (st : PyState) (loc : Vec3) (dref : Option Nat)
    (r : Nat) (hr : r < st.dicts.length) :
    (add_point st loc dref).1.dicts[r]? = st.dicts[r]? := by
  rw [add_point_eq]
  exact getElem?_append_lt _ _ _ hr

theorem add_line_preserves (st : PyState) (a b : Vec3) (dref : Option Nat)
    (r : Nat) (hr : r < st.dicts.length) :
    (add_line st a b dref).1.dicts[r]? = st.dicts[r]? := by
  rw [add_line_eq]
  exact getElem?_append_lt _ _ _ hr

theorem add_ellipse_preserves (st : PyState) (c a : Vec3) (rv sp ep : ℚ)
    (dref : Option Nat) (r : Nat) (hr : r < st.dicts.length) :
    (add_ellipse st c a rv sp ep dref).1.dicts[r]? = st.dicts[r]? := by
  by_cases hv : st.version < DXF2000
  · simp [add_ellipse, hv]
  · by_cases hrv : 1 < rv
    · simp [add_ellipse, hv, hrv]
    · rw [add_ellipse_eq st c a rv sp ep dref hv hrv]
      exact getElem?_append_lt _ _ _ hr

theorem add_quadrilateral_preserves (st : PyState) (etype : String)
    (pts : List Vec3) (dref : Option Nat) (r : Nat) (hr : r < st.dicts.length) :
    (add_quadrilateral st etype pts dref).1.dicts[r]? = st.dicts[r]? := by
  cases hfp : four_points pts with
  | error e =>
      simp only [add_quadrilateral, hfp, PyState.copyArg, PyState.allocDict,
        PyState.newEntity]
      exact getElem?_append_lt _ _ _ hr
  | ok vs =>
      simp only [add_quadrilateral, hfp, PyState.copyArg, PyState.allocDict,
        PyState.newEntity, PyState.modEntity]
      exact getElem?_append_lt _ _ _ hr

theorem add_polyline2d_preserves (st : PyState) (pts : List Vec3)
    (dref : Option Nat) (r : Nat) (hr : r < st.dicts.length) :
    (add_polyline2d st pts dref).1.dicts[r]? = st.dicts[r]? := by
  rw [add_polyline2d_eq]
  exact getElem?_append_lt _ _ _ hr

theorem add_polyline3d_preserves (st : PyState) (pts : List Vec3)
    (dref : Option Nat) (r : Nat) (hr : r < st.dicts.length) :
    (add_polyline3d st pts dref).1.dicts[r]? = st.dicts[r]? := by
  cases horf : orFlags ((st.readArg dref).get "flags" (DxfValue.int 0))
      POLYLINE_3D_POLYLINE with
  | error e =>
      simp only [add_polyline3d, PyState.copyArg, PyState.allocDict,
        PyState.getDict, getD_concat_self, horf]
      exact getElem?_append_lt _ _ _ hr
  | ok fv =>
      obtain ⟨n, hv, rfl⟩ := orFlags_ok _ _ _ horf
      rw [add_polyline3d_eq st pts dref n hv]
      rw [getElem?_append_lt _ _ _
        (by simp only [List.length_append, List.length_cons, List.length_nil]; omega),
        getElem?_append_lt _ _ _ hr]

theorem add_polymesh_preserves (st : PyState) (m n : ℤ) (dref : Option Nat)
    (r : Nat) (hr : r < st.dicts.length) :
    (add_polymesh st (m, n) dref).1.dicts[r]? = st.dicts[r]? := by
  cases horf : orFlags ((st.readArg dref).get "flags" (DxfValue.int 0))
      POLYLINE_3D_POLYMESH with
  | error e =>
      simp only [add_polymesh, PyState.copyArg, PyState.allocDict,
        PyState.getDict, getD_concat_self, horf]
      exact getElem?_append_lt _ _ _ hr
  | ok fv =>
      obtain ⟨k, hv, rfl⟩ := orFlags_ok _ _ _ horf
      rw [add_polymesh_eq st m n dref k hv]
      exact getElem?_append_lt _ _ _ hr

theorem add_polyface_preserves (st : PyState) (dref : Option Nat)
    (r : Nat) (hr : r < st.dicts.length) :
    (add_polyface st dref).1.dicts[r]? = st.dicts[r]? := by
  cases horf : orFlags ((st.readArg dref).get "flags" (DxfValue.int 0))
      POLYLINE_POLYFACE with
  | error e =>
      simp only [add_polyface, PyState.copyArg, PyState.allocDict,
        PyState.getDict, getD_concat_self, horf]
      exact getElem?_append_lt _ _ _ hr
  | ok fv =>
      obtain ⟨k, hv, rfl⟩ := orFlags_ok _ _ _ horf
      rw [add_polyface_eq st dref k hv]
      exact getElem?_append_lt _ _ _ hr

theorem add_acis_entiy_preserves (st : PyState) (name : String)
    (acis_data : Option String) (dref : Option Nat) (r : Nat)
    (hr : r < st.dicts.length) :
    (add_acis_entiy st name acis_data dref).1.dicts[r]? = st.dicts[r]? := by
  by_cases hv : st.version < DXF2000
  · simp [add_acis_entiy, hv]
  · rw [add_acis_entiy_eq _ _ _ _ hv]
    exact getElem?_append_lt _ _ _ hr

theorem add_surface_preserves (st : PyState) (acis_data : Option String)
    (dref : Option Nat) (r : Nat) (hr : r < st.dicts.length) :
    (add_surface st acis_data dref).1.dicts[r]? = st.dicts[r]? := by
  by_cases hv : st.version < DXF2007
  · simp [add_surface, hv]
  · simp only [add_surface, if_neg hv]
    exact add_acis_entiy_preserves st _ acis_data dref r hr

theorem add_linear_dim_preserves (st : PyState) (base p1 p2 : Vec3)
    (loc : Option Vec3) (text : String) (angle : ℚ) (trot : Option ℚ)
    (dimstyle : String) (ov dref : Option Nat) (r : Nat)
    (hdref : ∀ r', dref = Option.some r' → r' < st.dicts.length)
    (hr : r < st.dicts.length) :
    (add_linear_dim st base p1 p2 loc text angle trot dimstyle ov
      dref).1.dicts[r]? = st.dicts[r]? := by
  rw [add_linear_dim_eq _ _ _ _ _ _ _ _ _ _ _ hdref]
  rw [getElem?_append_lt _ _ _
    (by simp only [List.length_append, List.length_cons, List.length_nil]; omega),
    getElem?_append_lt _ _ _ hr]

theorem add_aligned_dim_preserves (ops : GeomOps) (st : PyState) (p1 p2 : Vec3)
    (distance : ℚ) (text dimstyle : String) (ov dref : Option Nat) (r : Nat)
    (hdref : ∀ r', dref = Option.some r' → r' < st.dicts.length)
    (hr : r < st.dicts.length) :
    (add_aligned_dim ops st p1 p2 distance text dimstyle ov dref).1.dicts[r]?
      = st.dicts[r]? :=
  add_linear_dim_preserves st _ p1 p2 Option.none text _ Option.none dimstyle ov
    dref r hdref hr

/-- C9: no factory method ever mutates the caller-supplied attribute
dictionary: each method merges into a fresh copy, so for every live caller
dictionary reference the heap cell it names is unchanged after the call —
keys popped during assembly (closed, m_close, n_close) or added (computed
geometry fields) never disappear from or appear in the caller dictionary. -/
theorem factory_preserves_caller_dxfattribs :
    (∀ (st : PyState) (loc : Vec3) (dref : Option Nat) (r : Nat),
      r < st.dicts.length → (add_point st loc dref).1.dicts[r]? = st.dicts[r]?) ∧
    (∀ (st : PyState) (a b : Vec3) (dref : Option Nat) (r : Nat),
      r < st.dicts.length → (add_line st a b dref).1.dicts[r]? = st.dicts[r]?) ∧
    (∀ (st : PyState) (c a : Vec3) (rv sp ep : ℚ) (dref : Option Nat) (r : Nat),
      r < st.dicts.length →
      (add_ellipse st c a rv sp ep dref).1.dicts[r]? = st.dicts[r]?) ∧
    (∀ (st : PyState) (pts : List Vec3) (dref : Option Nat) (r : Nat),
      r < st.dicts.length →
      (add_solid st pts dref).1.dicts[r]? = st.dicts[r]? ∧
      (add_trace st pts dref).1.dicts[r]? = st.dicts[r]? ∧
      (add_3dface st pts dref).1.dicts[r]? = st.dicts[r]?) ∧
    (∀ (st : PyState) (pts : List Vec3) (dref : Option Nat) (r : Nat),
      r < st.dicts.length →
      (add_polyline2d st pts dref).1.dicts[r]? = st.dicts[r]? ∧
      (add_polyline3d st pts dref).1.dicts[r]? = st.dicts[r]?) ∧
    (∀ (st : PyState) (m n : ℤ) (dref : Option Nat) (r : Nat),
      r < st.dicts.length →
      (add_polymesh st (m, n) dref).1.dicts[r]? = st.dicts[r]? ∧
      (add_polyface st dref).1.dicts[r]? = st.dicts[r]?) ∧
    (∀ (st : PyState) (name : String) (acis_data : Option String)
      (dref : Option Nat) (r : Nat),
      r < st.dicts.length →
      (add_acis_entiy st name acis_data dref).1.dicts[r]? = st.dicts[r]? ∧
      (add_surface st acis_data dref).1.dicts[r]? = st.dicts[r]?) ∧
    (∀ (ops : GeomOps) (st : PyState) (base p1 p2 : Vec3) (loc : Option Vec3)
      (text : String) (angle distance : ℚ) (trot : Option ℚ) (dimstyle : String)
      (ov dref : Option Nat) (r : Nat),
      (∀ r', dref = Option.some r' → r' < st.dicts.length) →
      r < st.dicts.length →
      (add_linear_dim st base p1 p2 loc text angle trot dimstyle ov
        dref).1.dicts[r]? = st.dicts[r]? ∧
      (add_aligned_dim ops st p1 p2 distance text dimstyle ov dref).1.dicts[r]?
        = st.dicts[r]?) :=
  ⟨add_point_preserves,
   add_line_preserves,
   add_ellipse_preserves,
   fun st pts dref r hr =>
     ⟨add_quadrilateral_preserves st "SOLID" pts dref r hr,
      add_quadrilateral_preserves st "TRACE" pts dref r hr,
      add_quadrilateral_preserves st "3DFACE" pts dref r hr⟩,
   fun st pts dref r hr =>
     ⟨add_polyline2d_preserves st pts dref r hr,
      add_polyline3d_preserves st pts dref r hr⟩,
   fun st m n dref r hr =>
     ⟨add_polymesh_preserves st m n dref r hr,
      add_polyface_preserves st dref r hr⟩,
   fun st name acis_data dref r hr =>
     ⟨add_acis_entiy_preserves st name acis_data dref r hr,
      add_surface_preserves st acis_data dref r hr⟩,
   fun ops st base p1 p2 loc text angle distance trot dimstyle ov dref r hdref hr =>
     ⟨add_linear_dim_preserves st base p1 p2 loc text angle trot dimstyle ov dref
        r hdref hr,
      add_aligned_dim_preserves ops st p1 p2 distance text dimstyle ov dref r
        hdref hr⟩⟩

/-- Witness for C9: the caller dictionary of `stDict` is untouched by
`add_polyline2d` (which pops `closed` from its fresh copy) and by
`add_point`. -/
theorem factory_preserves_caller_dxfattribs_witness :
    (add_polyline2d stDict [v0, v1] (Option.some 0)).1.dicts[0]?
      = Option.some [("color", DxfValue.int 1)] ∧
    (add_point stDict v0 (Option.some 0)).1.dicts[0]?
      = Option.some [("color", DxfValue.int 1)] := by
  constructor
  · rw [(factory_preserves_caller_dxfattribs.2.2.2.2.1 stDict [v0, v1]
      (Option.some 0) 0 (by decide)).1]
    rfl
  · rw [factory_preserves_caller_dxfattribs.1 stDict v0 (Option.some 0) 0 (by decide)]
    rfl
